import Mathlib

set_option maxRecDepth 8000

/-!
Verification of the Vizportal authentication core of TheInformationLab/tableau-tools.

The definitions below are a shallow embedding of the two Python files
`make-me-a-friggin-pat/make_me_a_friggin_pat.py` (class `VizportalAuth`, the
defensive variant) and `make-me-a-friggin-pat/vizportal_auth.py` (the strict
variant).  HTTP traffic is abstracted: each method takes the response it would
receive (status, parsed JSON body, Set-Cookie contents) as an argument, and the
mutable object state (`key_id`, `n`, `e`, the cookie jar of the
`requests.Session`) is passed and returned explicitly.  Python big integers are
`Nat` (the server key components are non-negative); fallible code returns
`Except PyError`.
-/

/-- JSON values that the server may put in `result.key.n` / `result.key.e`:
either a string or a native (non-negative) integer. -/
inductive PyVal where
  | str (s : String)
  | int (i : Nat)
deriving DecidableEq, Repr

/-- Python exceptions raised by the modelled code, distinguished the way Python
distinguishes them: by class and message.  `keyError k` is the exception of a
failed dict lookup `d["k"]`.  `httpError status msg` is `requests.HTTPError`
from `Response.raise_for_status` (msg is "Client Error" for 4xx, "Server Error"
for 5xx).  `unexpectedResponse text` is the `RuntimeError` raised by
`create_personal_access_token` with message `"Unexpected response: " ++ text`;
it carries the raw response text, and since every other RuntimeError in these
files has a fixed message not starting with that prefix, it is modelled as its
own constructor. -/
inductive PyError where
  | keyError (k : String)
  | typeError (msg : String)
  | valueError (msg : String)
  | runtimeError (msg : String)
  | httpError (status : Nat) (msg : String)
  | unexpectedResponse (text : String)
deriving DecidableEq, Repr

/-- Mutable key state of a `VizportalAuth` object: `self.key_id`, `self.n`,
`self.e`; all three are `None` after `__init__`. -/
structure AuthState where
  key_id : Option String
  n : Option PyVal
  e : Option PyVal
deriving DecidableEq, Repr

/-- State of a freshly constructed `VizportalAuth` (`__init__` sets all three
key fields to `None`). -/
def initState : AuthState := ⟨none, none, none⟩

/-- Value of a hexadecimal digit character (0-9, a-f, A-F), as accepted by
Python `int(s, 16)`. -/
def hexDigit (c : Char) : Option Nat :=
  if 48 ≤ c.toNat ∧ c.toNat ≤ 57 then some (c.toNat - 48)
  else if 97 ≤ c.toNat ∧ c.toNat ≤ 102 then some (c.toNat - 87)
  else if 65 ≤ c.toNat ∧ c.toNat ≤ 70 then some (c.toNat - 55)
  else none

/-- Accumulating base-16 evaluation of a character list; `none` when some
character is not a hex digit. -/
def hexValAux : List Char → Nat → Option Nat
  | [], acc => some acc
  | c :: cs, acc =>
    match hexDigit c with
    | some d => hexValAux cs (16 * acc + d)
    | none => none

/-- Python `int(s, 16)` on the strings this protocol transports: a non-empty
run of hex digits evaluates in base 16, anything else raises `ValueError`.
(Python additionally tolerates surrounding whitespace, a sign, a `0x` prefix
and underscores; the server never sends those, so they are not modelled.) -/
def pyIntBase16 (s : String) : Except PyError Nat :=
  if s.data.isEmpty then
    .error (.valueError ("invalid literal for int() with base 16: " ++ s))
  else
    match hexValAux s.data 0 with
    | some v => .ok v
    | none => .error (.valueError ("invalid literal for int() with base 16: " ++ s))

/-- Key-field parsing of `make_me_a_friggin_pat.VizportalAuth.encrypt_password`:
`int(x, 16)` when the field is a string, `int(x)` (identity on an int) when it
is a native integer. -/
def parseKeyField : PyVal → Except PyError Nat
  | .str s => pyIntBase16 s
  | .int i => .ok i

/-- Key-field parsing of `vizportal_auth.VizportalAuth.encrypt_password`:
always `int(x, 16)`, so a native integer raises `TypeError` (Python refuses
`int(i, 16)` on an int). -/
def parseKeyFieldVA : PyVal → Except PyError Nat
  | .str s => pyIntBase16 s
  | .int _ => .error (.typeError "int() cannot convert non-string with explicit base")

/-- Bit length of a natural number, computed with an explicit fuel argument
(`fuel ≥ n` suffices) so that it evaluates by kernel reduction. -/
def bitLenAux : Nat → Nat → Nat
  | 0, _ => 0
  | fuel + 1, n => if n = 0 then 0 else bitLenAux fuel (n / 2) + 1

/-- Bit length of a natural number (`Crypto.Util.number.size`): 0 for 0, and
`floor(log2 n) + 1` otherwise. -/
def bitLen (n : Nat) : Nat := bitLenAux n n

/-- Byte length of a positive integer, as pycryptodome computes it for the RSA
modulus: `ceil_div(size(n), 8)` where `size` is the bit length. -/
def byteLength (n : Nat) : Nat := (bitLen n + 7) / 8

/-- Consistency checks of pycryptodome `RSA.construct((n, e))` for a
public-only key: the public exponent must satisfy `1 < e < n` and the modulus
must be odd; otherwise `ValueError`. -/
def RSAconstruct (n e : Nat) : Except PyError Unit :=
  if e ≤ 1 ∨ n ≤ e then .error (.valueError "Invalid RSA public exponent")
  else if n % 2 = 0 then .error (.valueError "Invalid RSA modulus")
  else .ok ()

/-- Big-endian bytes-to-integer (pycryptodome `bytes_to_long`). -/
def bytesToNat (bs : List Nat) : Nat :=
  bs.foldl (fun acc b => 256 * acc + b) 0

/-- Big-endian integer-to-bytes of a fixed width (pycryptodome
`long_to_bytes(v, len)` on the values this code produces, which always fit in
`len` bytes because the ciphertext is reduced mod the modulus). -/
def natToBytes : Nat → Nat → List Nat
  | _, 0 => []
  | v, len + 1 => natToBytes (v / 256) len ++ [v % 256]

/-- PKCS#1 v1.5 encryption as pycryptodome `PKCS1_v1_5.new(key).encrypt(msg)`
preceded by the `RSA.construct` checks.  The random non-zero padding bytes
`ps` (drawn by pycryptodome, of length `k - mLen - 3`) are passed as a
parameter.  Steps: length check `mLen > k - 11` (Python int arithmetic, hence
the cast to `Int`); encoded message `00 02 ‖ ps ‖ 00 ‖ msg`; the RSA primitive
range check (`Plaintext too large`) and `em ^ e mod n`; fixed-width I2OSP. -/
def pkcs1v15Encrypt (n e : Nat) (ps msg : List Nat) : Except PyError (List Nat) :=
  match RSAconstruct n e with
  | .error err => .error err
  | .ok _ =>
    let k := byteLength n
    if (msg.length : Int) > (k : Int) - 11 then
      .error (.valueError "Plaintext is too long.")
    else
      let em := 0 :: 2 :: (ps ++ 0 :: msg)
      let emInt := bytesToNat em
      if n ≤ emInt then .error (.valueError "Plaintext too large")
      else .ok (natToBytes (emInt ^ e % n) k)

/-- Hex character of a value below 16, lowercase (as `binascii.b2a_hex`). -/
def hexChar (d : Nat) : Char :=
  if d < 10 then Char.ofNat (48 + d) else Char.ofNat (87 + d)

/-- Character list of the lowercase hex encoding of a byte list. -/
def b2aHexChars : List Nat → List Char
  | [] => []
  | b :: bs => hexChar (b / 16) :: hexChar (b % 16) :: b2aHexChars bs

/-- Lowercase hex encoding of a byte list (`binascii.b2a_hex(..).decode`). -/
def b2aHex (bs : List Nat) : String := ⟨b2aHexChars bs⟩

/-- Message of the missing-key `RuntimeError` of
`make_me_a_friggin_pat.encrypt_password`. -/
def pubkeyNotInitMsg : String :=
  "Public key not initialized. Call generate_public_key() first."

/-- Encryption step of `make_me_a_friggin_pat.VizportalAuth.encrypt_password`:
check `self.n` / `self.e` are populated, parse each (hex string or native
int), construct the RSA key, PKCS#1 v1.5-encrypt the UTF-8 bytes `pw` of the
password, return the lowercase-hex ciphertext. -/
def encrypt_password (st : AuthState) (pw ps : List Nat) : Except PyError String :=
  match st.n, st.e with
  | none, _ => .error (.runtimeError pubkeyNotInitMsg)
  | some _, none => .error (.runtimeError pubkeyNotInitMsg)
  | some nv, some ev =>
    match parseKeyField nv with
    | .error err => .error err
    | .ok modulus =>
      match parseKeyField ev with
      | .error err => .error err
      | .ok exponent =>
        match pkcs1v15Encrypt modulus exponent ps pw with
        | .error err => .error err
        | .ok ct => .ok (b2aHex ct)

/-- Encryption step of `vizportal_auth.VizportalAuth.encrypt_password`: raises
`ValueError` when a key component is `None`, and parses both components with
`int(x, 16)` unconditionally (`parseKeyFieldVA`). -/
def encrypt_passwordVA (st : AuthState) (pw ps : List Nat) : Except PyError String :=
  match st.n, st.e with
  | none, _ => .error (.valueError "Public key not generated. Call generate_public_key() first.")
  | some _, none => .error (.valueError "Public key not generated. Call generate_public_key() first.")
  | some nv, some ev =>
    match parseKeyFieldVA nv with
    | .error err => .error err
    | .ok modulus =>
      match parseKeyFieldVA ev with
      | .error err => .error err
      | .ok exponent =>
        match pkcs1v15Encrypt modulus exponent ps pw with
        | .error err => .error err
        | .ok ct => .ok (b2aHex ct)

/-- The two cookies this protocol reads from the shared cookie jar of the
`requests.Session`: `workgroup_session_id` (`wg`) and `XSRF-TOKEN` (`xsrf`).
`none` models absence from the jar. -/
structure CookieJar where
  wg : Option String
  xsrf : Option String
deriving DecidableEq, Repr

/-- Truthiness of `Session.cookies.get(name)` under Python `not`: `None` and
the empty string are falsy. -/
def falsy : Option String → Bool
  | none => true
  | some s => s.isEmpty

/-- Set-Cookie contents of one HTTP response, restricted to the two cookies
the code reads; `requests` merges them into the session jar, a named cookie
replacing the stored one and an unnamed cookie leaving it alone. -/
structure SetCookies where
  wg : Option String
  xsrf : Option String
deriving DecidableEq, Repr

/-- Merge of the Set-Cookie data of a response into the session jar. -/
def mergeJar (jar : CookieJar) (resp : SetCookies) : CookieJar :=
  { wg := match resp.wg with | some v => some v | none => jar.wg,
    xsrf := match resp.xsrf with | some v => some v | none => jar.xsrf }

/-- Behaviour of `requests.Response.raise_for_status`: `HTTPError` with a
"Client Error" message for 400-499, with a "Server Error" message for 500-599,
and no exception for any other status. -/
def raise_for_status (status : Nat) : Except PyError Unit :=
  if 400 ≤ status ∧ status < 500 then .error (.httpError status "Client Error")
  else if 500 ≤ status ∧ status < 600 then .error (.httpError status "Server Error")
  else .ok ()

/-- Parsed JSON body of the `generatePublicKey` response, with every field the
code indexes optional; `result.key.n` and `result.key.e` may be strings or
native integers. -/
structure KeyBody where
  n : Option PyVal
  e : Option PyVal
deriving DecidableEq, Repr

/-- Payload under `result` in the `generatePublicKey` response body. -/
structure KeyResult where
  keyId : Option String
  key : Option KeyBody
deriving DecidableEq, Repr

/-- Top level of the `generatePublicKey` response body. -/
structure KeyFetchBody where
  result : Option KeyResult
deriving DecidableEq, Repr

/-- Body-handling of `VizportalAuth.generate_public_key` (identical in both
source files) after the POST: `raise_for_status`, then the raw dict lookups
`resp.json()["result"]`, `result["keyId"]`, `result["key"]["n"]`,
`result["key"]["e"]`, each missing key raising `KeyError`, interleaved with
the attribute assignments `self.key_id = ...`, `self.n = ...`, `self.e = ...`
in that order, so a `KeyError` part-way leaves the earlier assignments in
place.  Returns the Python result together with the object state after the
call. -/
def generate_public_key (st : AuthState) (status : Nat) (body : KeyFetchBody) :
    Except PyError (String × PyVal × PyVal) × AuthState :=
  match raise_for_status status with
  | .error err => (.error err, st)
  | .ok _ =>
    match body.result with
    | none => (.error (.keyError "result"), st)
    | some r =>
      match r.keyId with
      | none => (.error (.keyError "keyId"), st)
      | some kid =>
        let st1 := { st with key_id := some kid }
        match r.key with
        | none => (.error (.keyError "key"), st1)
        | some k =>
          match k.n with
          | none => (.error (.keyError "n"), st1)
          | some nv =>
            let st2 := { st1 with n := some nv }
            match k.e with
            | none => (.error (.keyError "e"), st2)
            | some ev => (.ok (kid, nv, ev), { st2 with e := some ev })

/-- Environment of one `login` call: the response `generate_public_key` would
receive if called, and the status and Set-Cookie contents of the login POST
response. -/
structure LoginEnv where
  keyStatus : Nat
  keyBody : KeyFetchBody
  loginStatus : Nat
  loginCookies : SetCookies
deriving DecidableEq, Repr

/-- Decidable equality on `Except`, used to evaluate concrete runs. -/
instance {ε α : Type} [DecidableEq ε] [DecidableEq α] : DecidableEq (Except ε α) := fun x y =>
  match x, y with
  | .ok a, .ok b =>
    if h : a = b then isTrue (by rw [h]) else isFalse (by intro hh; cases hh; exact h rfl)
  | .error a, .error b =>
    if h : a = b then isTrue (by rw [h]) else isFalse (by intro hh; cases hh; exact h rfl)
  | .ok _, .error _ => isFalse (by intro hh; cases hh)
  | .error _, .ok _ => isFalse (by intro hh; cases hh)

/-- Result of a `login` call: the Python outcome (the returned
`(workgroup_session_id, xsrf_token)` pair or the exception), the object key
state and session jar afterwards, and whether the implicit
`generate_public_key` call ran. -/
structure LoginResult where
  outcome : Except PyError (String × String)
  st : AuthState
  jar : CookieJar
  fetched : Bool
deriving DecidableEq, Repr

/-- Message of the `RuntimeError` both login variants raise when a 2xx login
response leaves either cookie missing or empty. -/
def incompleteSessionErr : PyError :=
  .runtimeError "Login succeeded but tokens not found in cookies"

/-- Steps of `login` after the key-presence guard, shared by both variants up
to the choice of encryption routine: encrypt the password, POST (the response
cookies are merged into the session jar as the response arrives, before
`raise_for_status` is evaluated), `raise_for_status`, then read
`workgroup_session_id` and `XSRF-TOKEN` from the jar and raise when either is
falsy. -/
def loginAfterKey (enc : AuthState → List Nat → List Nat → Except PyError String)
    (st : AuthState) (jar : CookieJar) (env : LoginEnv) (pw ps : List Nat)
    (fetched : Bool) : LoginResult :=
  match enc st pw ps with
  | .error err => ⟨.error err, st, jar, fetched⟩
  | .ok _encryptedHex =>
    let jar2 := mergeJar jar env.loginCookies
    match raise_for_status env.loginStatus with
    | .error err => ⟨.error err, st, jar2, fetched⟩
    | .ok _ =>
      if falsy jar2.wg || falsy jar2.xsrf then
        ⟨.error incompleteSessionErr, st, jar2, fetched⟩
      else
        ⟨.ok (jar2.wg.getD "", jar2.xsrf.getD ""), st, jar2, fetched⟩

/-- The `login` of `make_me_a_friggin_pat.VizportalAuth`: regenerate the key
when `self.key_id`, `self.n` or `self.e` is `None` (propagating any exception
of that call and keeping its partial state effects), then proceed with
`encrypt_password`. -/
def login (st : AuthState) (jar : CookieJar) (env : LoginEnv) (pw ps : List Nat) :
    LoginResult :=
  if st.key_id.isNone || st.n.isNone || st.e.isNone then
    match generate_public_key st env.keyStatus env.keyBody with
    | (.error err, st1) => ⟨.error err, st1, jar, true⟩
    | (.ok _, st1) => loginAfterKey encrypt_password st1 jar env pw ps true
  else
    loginAfterKey encrypt_password st jar env pw ps false

/-- The guard `hasattr` on attribute `key_id` in `vizportal_auth.VizportalAuth.login`
evaluated on the object state: `__init__` always assigns `self.key_id = None`,
so the attribute exists on every instance and `hasattr` is always `True`. -/
def hasattrKeyId (_ : AuthState) : Bool := true

/-- The `login` of `vizportal_auth.VizportalAuth`: the key is regenerated only
when `hasattr` is false on attribute `key_id`, and the password is encrypted with the
strict `encrypt_passwordVA`. -/
def loginVA (st : AuthState) (jar : CookieJar) (env : LoginEnv) (pw ps : List Nat) :
    LoginResult :=
  if hasattrKeyId st = false then
    match generate_public_key st env.keyStatus env.keyBody with
    | (.error err, st1) => ⟨.error err, st1, jar, true⟩
    | (.ok _, st1) => loginAfterKey encrypt_passwordVA st1 jar env pw ps true
  else
    loginAfterKey encrypt_passwordVA st jar env pw ps false

/-- Payload under `result` in the `createPersonalAccessToken` response body. -/
structure PatResult where
  refreshToken : Option String
deriving DecidableEq, Repr

/-- Parsed body plus raw text of the `createPersonalAccessToken` response;
`resp.json().get("result", {})` yields `{}` when `result` is absent, modelled
by the `Option`. -/
structure PatBody where
  result : Option PatResult
  text : String
deriving DecidableEq, Repr

/-- Value of `resp.json().get("result", {}).get("refreshToken")`. -/
def getRefresh (b : PatBody) : Option String :=
  match b.result with
  | none => none
  | some r => r.refreshToken

/-- Message of the guard `RuntimeError` of `create_personal_access_token`. -/
def missingXsrfErr : PyError :=
  .runtimeError "Missing XSRF-TOKEN; please login first"

/-- The `create_personal_access_token` of `make_me_a_friggin_pat`: read
`XSRF-TOKEN` from the session jar and raise before any network traffic when it
is falsy; otherwise POST once, `raise_for_status`, and require a truthy
`result.refreshToken` (`if not token` catches both a missing field and an
empty string), raising `RuntimeError("Unexpected response: " + resp.text)`
otherwise.  The second component counts the network calls performed. -/
def create_personal_access_token (jar : CookieJar) (status : Nat) (body : PatBody) :
    Except PyError String × Nat :=
  if falsy jar.xsrf then (.error missingXsrfErr, 0)
  else
    match raise_for_status status with
    | .error err => (.error err, 1)
    | .ok _ =>
      match getRefresh body with
      | none => (.error (.unexpectedResponse body.text), 1)
      | some t => if t.isEmpty then (.error (.unexpectedResponse body.text), 1) else (.ok t, 1)

/-- A non-empty all-hex-digit character list always evaluates in base 16. -/
theorem hexValAux_isSome (l : List Char) (h : ∀ c ∈ l, (hexDigit c).isSome = true) :
    ∀ acc, (hexValAux l acc).isSome = true := by
  induction l with
  | nil => intro acc; rfl
  | cons c cs ih =>
    intro acc
    have hc : (hexDigit c).isSome = true := h c (List.mem_cons_self c cs)
    obtain ⟨d, hd⟩ := Option.isSome_iff_exists.mp hc
    simp only [hexValAux, hd]
    exact ih (fun x hx => h x (List.mem_cons_of_mem c hx)) _

/-- Fixed-width I2OSP always yields exactly the requested number of bytes. -/
theorem natToBytes_length (v len : Nat) : (natToBytes v len).length = len := by
  induction len generalizing v with
  | zero => rfl
  | succ k ih => simp [natToBytes, ih]

/-- Every entry produced by the fixed-width I2OSP is a byte. -/
theorem natToBytes_lt (v len : Nat) : ∀ b ∈ natToBytes v len, b < 256 := by
  induction len generalizing v with
  | zero => intro b hb; cases hb
  | succ k ih =>
    intro b hb
    simp only [natToBytes, List.mem_append, List.mem_singleton] at hb
    rcases hb with hb | hb
    · exact ih _ b hb
    · subst hb; exact Nat.mod_lt _ (by norm_num)

/-- The hex encoding of a byte list has two characters per byte. -/
theorem b2aHexChars_length (bs : List Nat) : (b2aHexChars bs).length = 2 * bs.length := by
  induction bs with
  | nil => rfl
  | cons b t ih => simp only [b2aHexChars, List.length_cons, ih]; omega

/-- Characters the lowercase-hex alphabet consists of: `0`-`9` and `a`-`f`. -/
def isLowerHexDigit (c : Char) : Bool :=
  (48 ≤ c.toNat && c.toNat ≤ 57) || (97 ≤ c.toNat && c.toNat ≤ 102)

/-- Hex characters of values below 16 are lowercase hex digits. -/
theorem hexChar_lower : ∀ d, d < 16 → isLowerHexDigit (hexChar d) = true := by decide

/-- The hex encoding of a list of bytes consists of lowercase hex digits. -/
theorem b2aHexChars_lower (bs : List Nat) (h : ∀ b ∈ bs, b < 256) :
    ∀ c ∈ b2aHexChars bs, isLowerHexDigit c = true := by
  induction bs with
  | nil => intro c hc; cases hc
  | cons b t ih =>
    intro c hc
    have hb : b < 256 := h b (List.mem_cons_self b t)
    simp only [b2aHexChars, List.mem_cons] at hc
    rcases hc with rfl | rfl | hc
    · exact hexChar_lower _ (Nat.div_lt_of_lt_mul (by omega))
    · exact hexChar_lower _ (Nat.mod_lt _ (by norm_num))
    · exact ih (fun x hx => h x (List.mem_cons_of_mem b hx)) c hc

/-- A successful PKCS#1 v1.5 encryption yields exactly `byteLength n` bytes,
each below 256. -/
theorem pkcs1v15Encrypt_ok (n e : Nat) (ps msg ct : List Nat)
    (h : pkcs1v15Encrypt n e ps msg = .ok ct) :
    ct.length = byteLength n ∧ ∀ b ∈ ct, b < 256 := by
  unfold pkcs1v15Encrypt at h
  cases hc : RSAconstruct n e with
  | error err => rw [hc] at h; cases h
  | ok u =>
    rw [hc] at h
    dsimp only at h
    split at h
    · cases h
    · split at h
      · cases h
      · cases h
        exact ⟨natToBytes_length _ _, natToBytes_lt _ _⟩

/-- Whatever happens after the key-presence guard, `login` never writes the
key fields: `loginAfterKey` returns the object state it was given. -/
theorem loginAfterKey_st (enc : AuthState → List Nat → List Nat → Except PyError String)
    (st : AuthState) (jar : CookieJar) (env : LoginEnv) (pw ps : List Nat) (f : Bool) :
    (loginAfterKey enc st jar env pw ps f).st = st := by
  unfold loginAfterKey
  cases enc st pw ps with
  | error err => rfl
  | ok hex =>
    cases raise_for_status env.loginStatus with
    | error err => rfl
    | ok u =>
      dsimp only
      split <;> rfl

/-- A `login` that returns normally returns two non-empty strings: the falsy
check on both cookies guards the return. -/
theorem loginAfterKey_ok (enc : AuthState → List Nat → List Nat → Except PyError String)
    (st : AuthState) (jar : CookieJar) (env : LoginEnv) (pw ps : List Nat) (f : Bool)
    (wg xsrf : String)
    (h : (loginAfterKey enc st jar env pw ps f).outcome = .ok (wg, xsrf)) :
    wg ≠ "" ∧ xsrf ≠ "" := by
  unfold loginAfterKey at h
  rcases he : enc st pw ps with err | hex <;> rw [he] at h <;> simp only [] at h
  · cases h
  · rcases hr : raise_for_status env.loginStatus with err | u <;> rw [hr] at h <;>
      simp only [] at h
    · cases h
    · by_cases hw : falsy (mergeJar jar env.loginCookies).wg = true
      · rw [if_pos (by simp [hw])] at h; cases h
      · by_cases hx : falsy (mergeJar jar env.loginCookies).xsrf = true
        · rw [if_pos (by simp [hx])] at h; cases h
        · rw [if_neg (by simp [hw, hx])] at h
          have hw' := Bool.eq_false_iff.mpr hw
          have hx' := Bool.eq_false_iff.mpr hx
          cases hjw : (mergeJar jar env.loginCookies).wg with
          | none => rw [hjw] at hw'; cases hw'
          | some s =>
            cases hjx : (mergeJar jar env.loginCookies).xsrf with
            | none => rw [hjx] at hx'; cases hx'
            | some t =>
              rw [hjw] at hw'; rw [hjx] at hx'
              rw [hjw, hjx] at h
              injection h with h2
              injection h2 with hwg hxsrf
              subst hwg; subst hxsrf
              constructor
              · intro hs; rw [Option.getD_some] at hs; subst hs; cases hw'
              · intro hs; rw [Option.getD_some] at hs; subst hs; cases hx'

/-- After a successful encryption and a 2xx response, a missing or empty
cookie makes `login` raise the fixed cookies-not-found `RuntimeError`. -/
theorem loginAfterKey_incomplete (enc : AuthState → List Nat → List Nat → Except PyError String)
    (st : AuthState) (jar : CookieJar) (env : LoginEnv) (pw ps : List Nat) (f : Bool)
    (henc : (enc st pw ps).isOk = true)
    (hst : raise_for_status env.loginStatus = .ok ())
    (hc : falsy (mergeJar jar env.loginCookies).wg = true ∨
      falsy (mergeJar jar env.loginCookies).xsrf = true) :
    (loginAfterKey enc st jar env pw ps f).outcome = .error incompleteSessionErr := by
  unfold loginAfterKey
  cases he : enc st pw ps with
  | error err => rw [he] at henc; cases henc
  | ok hex =>
    rw [hst]
    dsimp only
    rw [if_pos]
    rcases hc with hc | hc
    · simp [hc]
    · simp [hc]

/-- After a successful encryption, an exception of `raise_for_status` is the
outcome of `login`. -/
theorem loginAfterKey_http (enc : AuthState → List Nat → List Nat → Except PyError String)
    (st : AuthState) (jar : CookieJar) (env : LoginEnv) (pw ps : List Nat) (f : Bool)
    (err : PyError)
    (henc : (enc st pw ps).isOk = true)
    (hst : raise_for_status env.loginStatus = .error err) :
    (loginAfterKey enc st jar env pw ps f).outcome = .error err := by
  unfold loginAfterKey
  cases he : enc st pw ps with
  | error e2 => rw [he] at henc; cases henc
  | ok hex => rw [hst]

/-- A successful encryption requires both key components to be populated. -/
theorem encrypt_password_ok_fields (st : AuthState) (pw ps : List Nat)
    (h : (encrypt_password st pw ps).isOk = true) : st.n ≠ none ∧ st.e ≠ none := by
  obtain ⟨kid, n, e⟩ := st
  cases n with
  | none => simp [encrypt_password, Except.isOk, Except.toBool] at h
  | some nv =>
    cases e with
    | none => simp [encrypt_password, Except.isOk, Except.toBool] at h
    | some ev => exact ⟨by simp, by simp⟩

/-- When all three key fields are populated, the guard at the top of `login`
skips the implicit key fetch. -/
theorem login_no_fetch (st : AuthState) (jar : CookieJar) (env : LoginEnv) (pw ps : List Nat)
    (hkid : st.key_id ≠ none) (hn : st.n ≠ none) (he : st.e ≠ none) :
    login st jar env pw ps = loginAfterKey encrypt_password st jar env pw ps false := by
  have h1 : st.key_id.isNone = false := by
    cases hk : st.key_id with
    | none => exact absurd hk hkid
    | some _ => rfl
  have h2 : st.n.isNone = false := by
    cases hk : st.n with
    | none => exact absurd hk hn
    | some _ => rfl
  have h3 : st.e.isNone = false := by
    cases hk : st.e with
    | none => exact absurd hk he
    | some _ => rfl
  unfold login
  rw [h1, h2, h3]
  simp

/-- Every exception of `raise_for_status` is an `HTTPError`. -/
theorem raise_for_status_error_shape (status : Nat) (err : PyError)
    (h : raise_for_status status = .error err) : ∃ s m, err = PyError.httpError s m := by
  unfold raise_for_status at h
  split at h
  · injection h with h2; exact ⟨status, "Client Error", h2.symm⟩
  · split at h
    · injection h with h2; exact ⟨status, "Server Error", h2.symm⟩
    · cases h

/-- A non-empty string of decimal digits only. -/
def isDecimalString (s : String) : Bool :=
  !s.data.isEmpty && s.data.all (fun c => 48 ≤ c.toNat && c.toNat ≤ 57)

/-- Key fields that claim C1 ranges over: a non-empty base-16 string (hex
digits, either case) or a native integer. -/
def isHexStringOrInt : PyVal → Bool
  | .str s => !s.data.isEmpty && s.data.all (fun c => (hexDigit c).isSome)
  | .int _ => true

/-- A modulus transported as a string of decimal digits only; its value as a
decimal numeral would be 10^25 + 1, its value as a hex numeral is 16^25 + 1. -/
def decStr : String := "10000000000000000000000001"

/-- Object key state holding the decimal-digit modulus string and a native
small-integer exponent. -/
def stGood : AuthState := ⟨some "k1", some (.str decStr), some (.int 3)⟩

/-- UTF-8 bytes of the one-character password "x". -/
def pwBytes : List Nat := [120]

/-- A concrete draw of the nine random non-zero padding bytes pycryptodome
needs for a 13-byte modulus and a 1-byte message. -/
def psGood : List Nat := [1, 1, 1, 1, 1, 1, 1, 1, 1]

/-- An empty session cookie jar. -/
def jar0 : CookieJar := ⟨none, none⟩

/-- A well-formed `generatePublicKey` response body. -/
def goodKeyBody : KeyFetchBody :=
  ⟨some ⟨some "k1", some ⟨some (.str decStr), some (.int 3)⟩⟩⟩

/-- Claim C1, counterexample: `encrypt_password` does not reject a
decimal-digit key string.  With the modulus field the decimal string
`decStr`, parsing succeeds — the string is interpreted under radix 16,
yielding 16^25 + 1 rather than the decimal reading 10^25 + 1 — and encryption
proceeds to a ciphertext, so no `KeyFormatError` (nor any error) is raised,
contradicting the claim that decimal strings must raise `KeyFormatError`. -/
theorem C1_cex_decimal_string_accepted :
    isDecimalString decStr = true ∧
    parseKeyField (.str decStr) = .ok (16 ^ 25 + 1) ∧
    (16 ^ 25 + 1 : Nat) ≠ 10 ^ 25 + 1 ∧
    (encrypt_password stGood pwBytes psGood).isOk = true := by
  refine ⟨by decide, by decide, by decide, by decide⟩

/-- Claim C1, amended: in `make_me_a_friggin_pat.encrypt_password` every key
field that is a non-empty base-16 string or a native integer parses
successfully, and a decimal-digit string is not rejected: it parses
successfully too, under radix 16.  (No `KeyFormatError` exists in the code;
the decimal-rejection half of the original claim fails, see the
counterexample.) -/
theorem C1_amended_tolerant_base16_parse (v : PyVal) (h : isHexStringOrInt v = true) :
    (parseKeyField v).isOk = true ∧
    (∀ s, v = PyVal.str s → isDecimalString s = true →
      parseKeyField v = .ok ((hexValAux s.data 0).getD 0)) := by
  have key : ∀ s, v = PyVal.str s →
      ∃ w, parseKeyField v = .ok w ∧ (hexValAux s.data 0).getD 0 = w := by
    intro s hv
    subst hv
    simp only [isHexStringOrInt, Bool.and_eq_true, List.all_eq_true, Bool.not_eq_true'] at h
    obtain ⟨hne, hall⟩ := h
    have hs := hexValAux_isSome s.data (fun c hc => hall c hc) 0
    obtain ⟨w, hw⟩ := Option.isSome_iff_exists.mp hs
    refine ⟨w, ?_, by rw [hw]; rfl⟩
    simp [parseKeyField, pyIntBase16, hne, hw]
  constructor
  · cases v with
    | int i => rfl
    | str s =>
      obtain ⟨w, hw, _⟩ := key s rfl
      rw [hw]; rfl
  · intro s hv _
    obtain ⟨w, hw, hg⟩ := key s hv
    rw [hw, hg]

/-- Claim C1, witness for the amended theorem at the decimal string "65537":
it is accepted and evaluates under radix 16 to 415031. -/
theorem C1_amended_witness :
    (parseKeyField (PyVal.str "65537")).isOk = true ∧
    parseKeyField (PyVal.str "65537") = .ok 415031 := by
  have h := C1_amended_tolerant_base16_parse (PyVal.str "65537") (by decide)
  exact ⟨h.1, (h.2 "65537" rfl (by decide)).trans (by decide)⟩

/-- The `generatePublicKey` body misses a required field when `result`,
`result.keyId`, `result.key`, `result.key.n` or `result.key.e` is absent. -/
def missingRequired (b : KeyFetchBody) : Bool :=
  match b.result with
  | none => true
  | some r =>
    r.keyId.isNone ||
      match r.key with
      | none => true
      | some k => k.n.isNone || k.e.isNone

/-- Claim C2, counterexample: a 2xx key-fetch response whose body has
`result.keyId` but no `result.key` makes `generate_public_key` raise the
bare dict-lookup `KeyError` (not a typed `ProtocolError`), and it does so
after `self.key_id` has already been assigned, so the session state is
mutated, contradicting the claim that none of the key fields are mutated. -/
theorem C2_cex_partial_mutation :
    generate_public_key initState 200 ⟨some ⟨some "k1", none⟩⟩ =
      (.error (.keyError "key"), ⟨some "k1", none, none⟩) ∧
    (⟨some "k1", none, none⟩ : AuthState) ≠ initState := by
  refine ⟨by decide, by decide⟩

/-- Claim C2, amended: on a 2xx key-fetch response missing a required field,
`generate_public_key` raises a `KeyError` (the unhandled Python dict lookup,
not a typed protocol error); `self.e` is never assigned on such a failure,
while assignments made before the failing lookup persist (in particular
`self.key_id` when `result.keyId` was present); when `result` or
`result.keyId` is already missing, the state is fully unchanged. -/
theorem C2_amended_keyerror_mutation_order (st : AuthState) (status : Nat)
    (body : KeyFetchBody) (h2xx : raise_for_status status = .ok ())
    (hmiss : missingRequired body = true) :
    (∃ f, (generate_public_key st status body).1 = .error (.keyError f)) ∧
    (generate_public_key st status body).2.e = st.e ∧
    ((body.result.bind fun r => r.keyId).isNone = true →
      (generate_public_key st status body).2 = st) := by
  unfold generate_public_key
  rw [h2xx]
  dsimp only
  cases hres : body.result with
  | none => exact ⟨⟨"result", rfl⟩, rfl, fun _ => rfl⟩
  | some r =>
    simp only [missingRequired, hres] at hmiss
    dsimp only
    cases hkid : r.keyId with
    | none => exact ⟨⟨"keyId", rfl⟩, rfl, fun _ => rfl⟩
    | some kid =>
      dsimp only
      simp only [hkid, Option.isNone_some, Bool.false_or] at hmiss
      cases hkey : r.key with
      | none =>
        dsimp only
        refine ⟨⟨"key", rfl⟩, rfl, fun habs => ?_⟩
        simp [hkid] at habs
      | some k =>
        simp only [hkey] at hmiss
        dsimp only
        cases hn : k.n with
        | none =>
          dsimp only
          refine ⟨⟨"n", rfl⟩, rfl, fun habs => ?_⟩
          simp [hkid] at habs
        | some nv =>
          simp only [hn, Option.isNone_some, Bool.false_or] at hmiss
          cases he : k.e with
          | none =>
            dsimp only
            refine ⟨⟨"e", rfl⟩, rfl, fun habs => ?_⟩
            simp [hkid] at habs
          | some ev => rw [he] at hmiss; cases hmiss

/-- Claim C2, witness: a 200 response with an empty body mutates nothing and
raises the `KeyError` for "result". -/
theorem C2_amended_witness :
    (∃ f, (generate_public_key initState 200 ⟨none⟩).1 = .error (.keyError f)) ∧
    (generate_public_key initState 200 ⟨none⟩).2 = initState :=
  ⟨(C2_amended_keyerror_mutation_order initState 200 ⟨none⟩ (by decide) (by decide)).1,
    (C2_amended_keyerror_mutation_order initState 200 ⟨none⟩ (by decide) (by decide)).2.2
      (by decide)⟩

/-- Environment of a fully healthy exchange: 200 key fetch with a well-formed
body, 200 login that sets both cookies. -/
def envHappy : LoginEnv := ⟨200, goodKeyBody, 200, ⟨some "abc123", some "xyz789"⟩⟩

/-- Claim C3, code bug witness: from the initial state (all key fields
`None`), `vizportal_auth.login` never performs the implicit key fetch — the
guard `not hasattr` on attribute `key_id` is always false because `__init__`
assigns the attribute — so it fails with the `ValueError` of
`encrypt_password` even against a perfectly healthy server, while
`make_me_a_friggin_pat.login` (whose guard tests the three fields for `None`)
fetches the key implicitly and succeeds in the same environment, which is
the claimed behaviour and the evident intent of the `vizportal_auth` comment
"Step 1: get or refresh public key". -/
theorem C3_vizportal_hasattr_guard :
    loginVA initState jar0 envHappy pwBytes psGood =
      ⟨.error (.valueError "Public key not generated. Call generate_public_key() first."),
        initState, jar0, false⟩ ∧
    (login initState jar0 envHappy pwBytes psGood).fetched = true ∧
    (login initState jar0 envHappy pwBytes psGood).outcome = .ok ("abc123", "xyz789") := by
  refine ⟨by decide, by decide, by decide⟩

/-- Claim C4: on a login whose HTTP response is 2xx but whose cookie jar then
lacks `workgroup_session_id` or `XSRF-TOKEN` (absent or empty), `login` fails
with the dedicated cookies-not-found error; `login` never returns an empty
session id or anti-forgery token; and that error is distinct from every
transport (`HTTPError`) error. -/
theorem C4_incomplete_session_guard :
    (∀ st jar env pw ps, st.key_id ≠ none →
      (encrypt_password st pw ps).isOk = true →
      raise_for_status env.loginStatus = .ok () →
      (falsy (mergeJar jar env.loginCookies).wg = true ∨
        falsy (mergeJar jar env.loginCookies).xsrf = true) →
      (login st jar env pw ps).outcome = .error incompleteSessionErr) ∧
    (∀ st jar env pw ps wg xsrf,
      (login st jar env pw ps).outcome = .ok (wg, xsrf) → wg ≠ "" ∧ xsrf ≠ "") ∧
    (∀ s m, incompleteSessionErr ≠ PyError.httpError s m) := by
  refine ⟨?_, ?_, ?_⟩
  · intro st jar env pw ps hkid henc hst hc
    obtain ⟨hn, he⟩ := encrypt_password_ok_fields st pw ps henc
    rw [login_no_fetch st jar env pw ps hkid hn he]
    exact loginAfterKey_incomplete _ st jar env pw ps false henc hst hc
  · intro st jar env pw ps wg xsrf h
    unfold login at h
    split at h
    · rcases hg : generate_public_key st env.keyStatus env.keyBody with ⟨fr, st1⟩
      rw [hg] at h
      cases fr with
      | error err => simp at h
      | ok v => exact loginAfterKey_ok _ st1 jar env pw ps true wg xsrf h
    · exact loginAfterKey_ok _ st jar env pw ps false wg xsrf h
  · intro s m h; cases h

/-- Environment of a 2xx login response that sets no cookies at all. -/
def envNoCookies : LoginEnv := ⟨200, ⟨none⟩, 200, ⟨none, none⟩⟩

/-- Claim C4, witness: a concrete 200 login that sets no cookies fails with
the cookies-not-found error. -/
theorem C4_witness :
    (login stGood jar0 envNoCookies pwBytes psGood).outcome = .error incompleteSessionErr :=
  C4_incomplete_session_guard.1 stGood jar0 envNoCookies pwBytes psGood (by decide) (by decide)
    (by decide) (Or.inl (by decide))

/-- A well-formed `createPersonalAccessToken` response body. -/
def patBodyOk : PatBody := ⟨some ⟨some "tok-999"⟩, "ok"⟩

/-- Claim C5, counterexample: a session on which no successful login has
populated the credentials (the session-id cookie is entirely absent from the
jar, and a successful login always leaves both cookies non-empty) but whose
jar carries a stray non-empty `XSRF-TOKEN` passes the guard of
`create_personal_access_token` and performs one network call — not zero, and
not the `NotAuthenticated` failure the claim requires for every such
session. -/
theorem C5_cex_stray_xsrf :
    (CookieJar.mk none (some "stray")).wg = none ∧
    (create_personal_access_token ⟨none, some "stray"⟩ 200 patBodyOk).2 = 1 ∧
    (create_personal_access_token ⟨none, some "stray"⟩ 200 patBodyOk).1 = .ok "tok-999" := by
  refine ⟨by decide, by decide, by decide⟩

/-- Claim C5, amended: the pre-network guard of
`create_personal_access_token` tests exactly the `XSRF-TOKEN` cookie;
whenever it is absent or empty — in particular on a fresh session that never
logged in — the call raises the missing-XSRF `RuntimeError` and performs
zero network calls. -/
theorem C5_amended_guard_zero_calls (jar : CookieJar) (status : Nat) (body : PatBody)
    (h : falsy jar.xsrf = true) :
    create_personal_access_token jar status body = (.error missingXsrfErr, 0) := by
  simp [create_personal_access_token, h]

/-- Claim C5, witness: a fresh (empty) jar raises the guard error with zero
network calls. -/
theorem C5_amended_witness :
    create_personal_access_token jar0 200 patBodyOk = (.error missingXsrfErr, 0) :=
  C5_amended_guard_zero_calls jar0 200 patBodyOk (by decide)

/-- Test for the `HTTPError` error class. -/
def isHttpError : PyError → Bool
  | .httpError _ _ => true
  | _ => false

/-- Environment of a login answered with HTTP 303 and no cookies. -/
def env303 : LoginEnv := ⟨200, ⟨none⟩, 303, ⟨none, none⟩⟩

/-- Claim C6, counterexample: 303 is not a 2xx status, yet `login` surfaces
neither an `AuthRejected` nor a transport error there — `raise_for_status`
raises only for 400-599, so the code falls through to cookie extraction and
fails with the cookies-not-found `RuntimeError`, which is not an `HTTPError`
of any kind. -/
theorem C6_cex_303_no_typed_error :
    ¬(200 ≤ 303 ∧ 303 < 300) ∧
    (login stGood jar0 env303 pwBytes psGood).outcome = .error incompleteSessionErr ∧
    isHttpError incompleteSessionErr = false := by
  refine ⟨by decide, by decide, by decide⟩

/-- Claim C6, amended: for statuses in 400-499 `login` fails with
`requests.HTTPError` carrying a "Client Error" message, and for 500-599 with
the same exception class carrying a "Server Error" message (one error kind,
distinguishable only by message/status); statuses outside 400-599 raise
nothing at this step (see the counterexample for what happens on 3xx). -/
theorem C6_amended_status_classes (st : AuthState) (jar : CookieJar) (env : LoginEnv)
    (pw ps : List Nat) (hkid : st.key_id ≠ none)
    (henc : (encrypt_password st pw ps).isOk = true) :
    (400 ≤ env.loginStatus → env.loginStatus < 500 →
      (login st jar env pw ps).outcome = .error (.httpError env.loginStatus "Client Error")) ∧
    (500 ≤ env.loginStatus → env.loginStatus < 600 →
      (login st jar env pw ps).outcome = .error (.httpError env.loginStatus "Server Error")) := by
  obtain ⟨hn, he⟩ := encrypt_password_ok_fields st pw ps henc
  rw [login_no_fetch st jar env pw ps hkid hn he]
  constructor
  · intro h1 h2
    refine loginAfterKey_http _ st jar env pw ps false _ henc ?_
    unfold raise_for_status
    rw [if_pos ⟨h1, h2⟩]
  · intro h1 h2
    refine loginAfterKey_http _ st jar env pw ps false _ henc ?_
    unfold raise_for_status
    rw [if_neg (by omega), if_pos ⟨h1, h2⟩]

/-- Environment of a login answered with HTTP 401. -/
def env401 : LoginEnv := ⟨200, ⟨none⟩, 401, ⟨some "a", some "b"⟩⟩

/-- Environment of a login answered with HTTP 502. -/
def env502 : LoginEnv := ⟨200, ⟨none⟩, 502, ⟨some "a", some "b"⟩⟩

/-- Claim C6, witness: concrete 401 and 502 logins produce the two
`HTTPError` messages. -/
theorem C6_amended_witness :
    (login stGood jar0 env401 pwBytes psGood).outcome = .error (.httpError 401 "Client Error") ∧
    (login stGood jar0 env502 pwBytes psGood).outcome = .error (.httpError 502 "Server Error") :=
  ⟨(C6_amended_status_classes stGood jar0 env401 pwBytes psGood (by decide) (by decide)).1
      (by decide) (by decide),
    (C6_amended_status_classes stGood jar0 env502 pwBytes psGood (by decide) (by decide)).2
      (by decide) (by decide)⟩

/-- A string with a false `isEmpty` test is not the empty string. -/
theorem ne_empty_of_isEmpty_false (s : String) (h : s.isEmpty = false) : s ≠ "" := by
  intro hs; subst hs; exact absurd h (by decide)

/-- A string other than the empty string has a false `isEmpty` test. -/
theorem isEmpty_false_of_ne_empty (s : String) (h : s ≠ "") : s.isEmpty = false := by
  cases he : s.isEmpty
  · rfl
  · exact absurd ((String.isEmpty_iff s).mp he) h

/-- Claim C7: past the guard and on a 2xx status,
`create_personal_access_token` returns `t` exactly when `result.refreshToken`
is present with the non-empty value `t`, and a body without the field fails
with the unexpected-response `RuntimeError` despite the 2xx status. -/
theorem C7_refresh_token_required (jar : CookieJar) (status : Nat) (body : PatBody)
    (hx : falsy jar.xsrf = false) (h2xx : raise_for_status status = .ok ()) :
    (∀ t, (create_personal_access_token jar status body).1 = .ok t ↔
      (getRefresh body = some t ∧ t ≠ "")) ∧
    (getRefresh body = none →
      (create_personal_access_token jar status body).1 =
        .error (.unexpectedResponse body.text)) := by
  have hbody : create_personal_access_token jar status body =
      match getRefresh body with
      | none => (.error (.unexpectedResponse body.text), 1)
      | some t =>
        if t.isEmpty then (.error (.unexpectedResponse body.text), 1) else (.ok t, 1) := by
    simp [create_personal_access_token, hx, h2xx]
  constructor
  · intro t
    constructor
    · intro h
      rw [hbody] at h
      cases hg : getRefresh body with
      | none => rw [hg] at h; simp at h
      | some u =>
        rw [hg] at h
        dsimp only at h
        by_cases hu : u.isEmpty = true
        · rw [if_pos hu] at h; simp at h
        · rw [if_neg hu] at h
          simp only [] at h
          injection h with h2
          subst h2
          exact ⟨rfl, ne_empty_of_isEmpty_false u (Bool.eq_false_iff.mpr hu)⟩
    · rintro ⟨hg, ht⟩
      rw [hbody, hg]
      dsimp only
      rw [if_neg (by rw [isEmpty_false_of_ne_empty t ht]; exact Bool.false_ne_true)]
  · intro hg
    rw [hbody, hg]

/-- Claim C7, witness: with a populated jar and a 200 response carrying
`refreshToken: "tok-999"`, the call returns exactly that token. -/
theorem C7_witness :
    (create_personal_access_token ⟨some "abc", some "x"⟩ 200 patBodyOk).1 = .ok "tok-999" :=
  ((C7_refresh_token_required ⟨some "abc", some "x"⟩ 200 patBodyOk (by decide) (by decide)).1
    "tok-999").mpr ⟨by decide, by decide⟩

/-- The parsed RSA modulus a populated state holds: the value
`encrypt_password` derives from `self.n`. -/
def modulusOf (st : AuthState) : Except PyError Nat :=
  match st.n with
  | none => .error (.runtimeError pubkeyNotInitMsg)
  | some nv => parseKeyField nv

/-- Claim C8: whenever `encrypt_password` returns a ciphertext string, that
string has exactly `2 × byteLength modulus` characters, all of them lowercase
hex digits (no separators), where the modulus is the parsed `self.n`. -/
theorem C8_hex_shape (st : AuthState) (pw ps : List Nat) (out : String)
    (h : encrypt_password st pw ps = .ok out) :
    ∃ m, modulusOf st = .ok m ∧ out.length = 2 * byteLength m ∧
      out.data.all isLowerHexDigit = true := by
  obtain ⟨kid, n0, e0⟩ := st
  cases n0 with
  | none => simp [encrypt_password] at h
  | some nv =>
    cases e0 with
    | none => simp [encrypt_password] at h
    | some ev =>
      unfold encrypt_password at h
      dsimp only at h
      cases hm : parseKeyField nv with
      | error err => rw [hm] at h; simp at h
      | ok m =>
        rw [hm] at h
        dsimp only at h
        cases hex : parseKeyField ev with
        | error err => rw [hex] at h; simp at h
        | ok ex =>
          rw [hex] at h
          dsimp only at h
          cases hct : pkcs1v15Encrypt m ex ps pw with
          | error err => rw [hct] at h; simp at h
          | ok ct =>
            rw [hct] at h
            dsimp only at h
            injection h with h2
            obtain ⟨hlen, hbytes⟩ := pkcs1v15Encrypt_ok m ex ps pw ct hct
            subst h2
            refine ⟨m, by simp [modulusOf, hm], ?_, ?_⟩
            · show (b2aHexChars ct).length = 2 * byteLength m
              rw [b2aHexChars_length, hlen]
            · rw [List.all_eq_true]
              intro c hc
              exact b2aHexChars_lower ct hbytes c hc

/-- Claim C8, witness: the concrete ciphertext of the password "x" under the
13-byte modulus of `stGood` is 26 lowercase hex characters. -/
theorem C8_witness :
    ∃ m, modulusOf stGood = .ok m ∧
      ("0c0258ba2e3f73ca42dd733c2a" : String).length = 2 * byteLength m ∧
      ("0c0258ba2e3f73ca42dd733c2a" : String).data.all isLowerHexDigit = true :=
  C8_hex_shape stGood pwBytes psGood "0c0258ba2e3f73ca42dd733c2a" (by decide)

/-- Environment with a healthy key fetch but a login answered with HTTP 500
and no cookies. -/
def env500 : LoginEnv := ⟨200, goodKeyBody, 500, ⟨none, none⟩⟩

/-- Claim C9, counterexample: a login that begins with no key material held
performs the implicit key fetch, and when the login POST then fails (HTTP
500), the key fields are the freshly fetched values, not the values held when
the login attempt began — so a failing login does not leave the fields
exactly as they were. -/
theorem C9_cex_refetch_mutates :
    (login initState jar0 env500 pwBytes psGood).outcome = .error (.httpError 500 "Server Error") ∧
    (login initState jar0 env500 pwBytes psGood).st ≠ initState := by
  refine ⟨by decide, by decide⟩

/-- Claim C9, amended: when the session already holds complete key material
(`key_id`, `n`, `e` all populated) at the start of the call, a failing login
(any error outcome: HTTP error or missing cookies) leaves all three key
fields exactly as they were.  (When material was incomplete, `login` first
re-fetches it wholesale; the counterexample shows the original unconditional
claim fails there.) -/
theorem C9_amended_frame (st : AuthState) (jar : CookieJar) (env : LoginEnv) (pw ps : List Nat)
    (hkid : st.key_id ≠ none) (hn : st.n ≠ none) (he : st.e ≠ none)
    (hfail : (login st jar env pw ps).outcome.isOk = false) :
    (login st jar env pw ps).st = st := by
  rw [login_no_fetch st jar env pw ps hkid hn he]
  exact loginAfterKey_st _ st jar env pw ps false

/-- Claim C9, witness: a concrete 401-rejected login leaves the populated key
state untouched. -/
theorem C9_amended_witness : (login stGood jar0 env401 pwBytes psGood).st = stGood :=
  C9_amended_frame stGood jar0 env401 pwBytes psGood (by decide) (by decide) (by decide)
    (by decide)

/-- Claim C10: the authenticated-state guard of
`create_personal_access_token` tests only the `XSRF-TOKEN` cookie — on any
jar with a non-empty `XSRF-TOKEN` and no `workgroup_session_id` at all, the
call performs its one network request and never fails with the missing-XSRF
guard error. -/
theorem C10_xsrf_only_guard (jar : CookieJar) (status : Nat) (body : PatBody)
    (hx : falsy jar.xsrf = false) (hwg : jar.wg = none) :
    (create_personal_access_token jar status body).2 = 1 ∧
    (create_personal_access_token jar status body).1 ≠ .error missingXsrfErr := by
  have hred : create_personal_access_token jar status body =
      match raise_for_status status with
      | .error err => (.error err, 1)
      | .ok _ =>
        match getRefresh body with
        | none => (.error (.unexpectedResponse body.text), 1)
        | some t =>
          if t.isEmpty then (.error (.unexpectedResponse body.text), 1) else (.ok t, 1) := by
    simp [create_personal_access_token, hx]
  rw [hred]
  cases hr : raise_for_status status with
  | error err =>
    obtain ⟨s, m, hsm⟩ := raise_for_status_error_shape status err hr
    subst hsm
    exact ⟨rfl, by simp [missingXsrfErr]⟩
  | ok u =>
    cases hg : getRefresh body with
    | none => exact ⟨rfl, by simp [missingXsrfErr]⟩
    | some t =>
      dsimp only
      by_cases ht : t.isEmpty = true
      · rw [if_pos ht]
        exact ⟨rfl, by simp [missingXsrfErr]⟩
      · rw [if_neg ht]
        exact ⟨rfl, by simp⟩

/-- Claim C10, witness: a jar holding only a non-empty `XSRF-TOKEN` passes
the guard and the 404 POST happens (one network call). -/
theorem C10_witness :
    (create_personal_access_token ⟨none, some "x"⟩ 404 patBodyOk).2 = 1 ∧
    (create_personal_access_token ⟨none, some "x"⟩ 404 patBodyOk).1 ≠ .error missingXsrfErr :=
  C10_xsrf_only_guard ⟨none, some "x"⟩ 404 patBodyOk (by decide) (by decide)
